import Mathlib

/-!
Verification of the burst-coalescing core of DirMon (src/DirMon.cpp).

The core lives in `monitor` (lines 110-191): two shared `time_t` variables
`timeSig` (burst start, `0` meaning "no pending burst") and `timeSigLast`
(last event), a ticker thread that every 5 seconds decides whether to run
the batch action, and a recorder loop that stamps the shared variables on
each directory-change notification.  Timestamps are `time_t` values from
`time(nullptr)`, embedded here as `Int`; in every real execution they are
positive, which appears below as explicit positivity hypotheses.
-/

namespace DirMon

/-- The shared burst state of `monitor`: `timeSig` (line 114, burst-start
time, `0` = unset) and `timeSigLast` (line 115, last-event time). -/
structure BurstState where
  timeSig : Int
  timeSigLast : Int
deriving DecidableEq, Repr

/-- The state `monitor` starts from: both variables initialised to `0`
(lines 114-115). -/
def initialState : BurstState := ⟨0, 0⟩

/-- The recorder loop body, lines 183-185 of src/DirMon.cpp:
`if (!timeSig) timeSig = now; timeSigLast = now;`. -/
def recordEvent (s : BurstState) (now : Int) : BurstState :=
  { timeSig := if s.timeSig = 0 then now else s.timeSig
    timeSigLast := now }

/-- The ticker's firing decision, lines 123-139 of src/DirMon.cpp:
`if (!timeSig) continue;` then
`if (now - timeSig < 60) { if (now - timeSigLast < 5) continue; }`
with the `else` branch falling through to the fire path. -/
def shouldFire (s : BurstState) (now : Int) : Bool :=
  if s.timeSig = 0 then false
  else
    if now - s.timeSig < 60 then
      if now - s.timeSigLast < 5 then false else true
    else true

/-- Observable outcome of one ticker iteration: the state after it, whether
the fire path ran, how many times `_wsystem` was invoked, and whether the
non-zero-exit warning (line 157) was printed. -/
structure TickResult where
  state : BurstState
  fired : Bool
  invocations : Nat
  warned : Bool
deriving DecidableEq, Repr

/-- One iteration of the ticker lambda, lines 119-161 of src/DirMon.cpp,
after the 5-second sleep: either `continue` without touching anything, or
log, run `_wsystem(batPath)` (whose exit status is the parameter
`exitCode`), warn if the status is non-zero, and reset both timestamps to
`0`. -/
def tick (s : BurstState) (now : Int) (exitCode : Int) : TickResult :=
  if shouldFire s now then
    { state := ⟨0, 0⟩
      fired := true
      invocations := 1
      warned := exitCode ≠ 0 }
  else
    { state := s, fired := false, invocations := 0, warned := false }

/-- A sequence of recorder iterations: fold `recordEvent` over the
notification timestamps. -/
def recordAll (s : BurstState) (ts : List Int) : BurstState :=
  ts.foldl recordEvent s

/-- A sequence of ticker iterations (each given the current time and the
action's exit status); returns the final state and the total number of
`_wsystem` invocations. -/
def runTicks (s : BurstState) : List (Int × Int) → BurstState × Nat
  | [] => (s, 0)
  | (now, e) :: rest =>
    let r := tick s now e
    let p := runTicks r.state rest
    (p.1, r.invocations + p.2)

/-- The two `BurstState` invariants stated by the spec: `timeSig` is unset
iff `timeSigLast` is unset, and `timeSig ≤ timeSigLast` when set. -/
def Inv (s : BurstState) : Prop :=
  (s.timeSig = 0 ↔ s.timeSigLast = 0) ∧ (s.timeSig ≠ 0 → s.timeSig ≤ s.timeSigLast)

instance (s : BurstState) : Decidable (Inv s) := by
  unfold Inv; infer_instance

theorem recordAll_timeSig_of_ne (s : BurstState) (ts : List Int) (h : s.timeSig ≠ 0) :
    (recordAll s ts).timeSig = s.timeSig := by
  induction ts generalizing s with
  | nil => rfl
  | cons t rest ih =>
    simp only [recordAll, List.foldl_cons] at *
    rw [ih (recordEvent s t) (by simp [recordEvent, h])]
    simp [recordEvent, h]

theorem recordAll_timeSigLast (s : BurstState) (t : Int) (ts : List Int) :
    (recordAll s (t :: ts)).timeSigLast = (t :: ts).getLast (List.cons_ne_nil t ts) := by
  induction ts generalizing s t with
  | nil => simp [recordAll, recordEvent]
  | cons u rest ih =>
    simp only [recordAll, List.foldl_cons] at *
    rw [List.getLast_cons (List.cons_ne_nil u rest)]
    exact ih (recordEvent s t) u

/-- C1 -- With a burst pending (`timeSig ≠ 0`), the ticker fires exactly when
`now - timeSig ≥ 60` or `now - timeSigLast ≥ 5`; otherwise it neither fires
nor invokes the action executor and leaves the state untouched. -/
theorem fire_iff_age_or_idle (s : BurstState) (now exitCode : Int)
    (h : s.timeSig ≠ 0) :
    ((tick s now exitCode).fired = true ↔
      (60 ≤ now - s.timeSig ∨ 5 ≤ now - s.timeSigLast)) ∧
    (now - s.timeSig < 60 → now - s.timeSigLast < 5 →
      (tick s now exitCode).fired = false ∧
      (tick s now exitCode).invocations = 0 ∧
      (tick s now exitCode).state = s) := by
  constructor
  · constructor
    · intro hf
      by_contra hc
      push_neg at hc
      simp [tick, shouldFire, h, hc.1, hc.2] at hf
    · intro hor
      rcases hor with hage | hidle
      · simp [tick, shouldFire, h, hage.not_lt]
      · by_cases hage : now - s.timeSig < 60
        · simp [tick, shouldFire, h, hage, hidle.not_lt]
        · simp [tick, shouldFire, h, hage]
  · intro hage hidle
    refine ⟨?_, ?_, ?_⟩ <;> simp [tick, shouldFire, h, hage, hidle]

/-- Witness for C1 at a concrete pending burst. -/
theorem fire_iff_age_or_idle_witness :
    ((tick ⟨100, 103⟩ 110 0).fired = true ↔
      (60 ≤ (110 : Int) - 100 ∨ 5 ≤ (110 : Int) - 103)) ∧
    ((110 : Int) - 100 < 60 → (110 : Int) - 103 < 5 →
      (tick ⟨100, 103⟩ 110 0).fired = false ∧
      (tick ⟨100, 103⟩ 110 0).invocations = 0 ∧
      (tick ⟨100, 103⟩ 110 0).state = ⟨100, 103⟩) :=
  fire_iff_age_or_idle ⟨100, 103⟩ 110 0 (by decide)

/-- C5 -- While `timeSig` is unset the ticker is a no-op, each time and over
any number of iterations: no fire, no action invocation, no state change. -/
theorem tick_noop_of_unset (s : BurstState) (h : s.timeSig = 0) :
    (∀ now exitCode, tick s now exitCode =
      { state := s, fired := false, invocations := 0, warned := false }) ∧
    (∀ inputs, runTicks s inputs = (s, 0)) := by
  have hone : ∀ now exitCode, tick s now exitCode =
      { state := s, fired := false, invocations := 0, warned := false } := by
    intro now exitCode
    simp [tick, shouldFire, h]
  refine ⟨hone, ?_⟩
  intro inputs
  induction inputs with
  | nil => rfl
  | cons p rest ih =>
    obtain ⟨now, e⟩ := p
    simp [runTicks, hone now e, ih]

/-- Witness for C5 at the initial state and two concrete ticker iterations. -/
theorem tick_noop_of_unset_witness :
    (∀ now exitCode, tick initialState now exitCode =
      { state := initialState, fired := false, invocations := 0, warned := false }) ∧
    (∀ inputs, runTicks initialState inputs = (initialState, 0)) :=
  tick_noop_of_unset initialState rfl

/-- C2 -- For a sequence of recorder iterations starting from the idle state
with nondecreasing, positive timestamps, `timeSig` ends at the first
timestamp and `timeSigLast` at the last; and each single iteration sets
`timeSig` only when it was `0` and always overwrites `timeSigLast`. -/
theorem recordAll_first_last (t : Int) (rest : List Int)
    (hpos : 0 < t) (hmono : List.Chain' (· ≤ ·) (t :: rest)) :
    (recordAll initialState (t :: rest)).timeSig = t ∧
    (recordAll initialState (t :: rest)).timeSigLast =
      (t :: rest).getLast (List.cons_ne_nil t rest) ∧
    (∀ s now, (recordEvent s now).timeSigLast = now) ∧
    (∀ s now, s.timeSig = 0 → (recordEvent s now).timeSig = now) ∧
    (∀ s now, s.timeSig ≠ 0 → (recordEvent s now).timeSig = s.timeSig) := by
  refine ⟨?_, recordAll_timeSigLast initialState t rest, ?_, ?_, ?_⟩
  · have h1 : recordEvent initialState t = ⟨t, t⟩ := by
      simp [recordEvent, initialState]
    have h2 : recordAll initialState (t :: rest) = recordAll ⟨t, t⟩ rest := by
      simp [recordAll, List.foldl_cons, h1]
    have hne : (⟨t, t⟩ : BurstState).timeSig ≠ 0 := hpos.ne'
    rw [h2, recordAll_timeSig_of_ne ⟨t, t⟩ rest hne]
  · intro s now; rfl
  · intro s now h; simp [recordEvent, h]
  · intro s now h; simp [recordEvent, h]

/-- Witness for C2 at the concrete sequence 10, 12, 12, 15. -/
theorem recordAll_first_last_witness :
    (recordAll initialState [10, 12, 12, 15]).timeSig = 10 ∧
    (recordAll initialState [10, 12, 12, 15]).timeSigLast =
      ([10, 12, 12, 15] : List Int).getLast (List.cons_ne_nil 10 [12, 12, 15]) ∧
    (∀ s now, (recordEvent s now).timeSigLast = now) ∧
    (∀ s now, s.timeSig = 0 → (recordEvent s now).timeSig = now) ∧
    (∀ s now, s.timeSig ≠ 0 → (recordEvent s now).timeSig = s.timeSig) :=
  recordAll_first_last 10 [12, 12, 15] (by decide) (by norm_num [List.chain'_cons])

/-- C4 -- Both state invariants (`timeSig = 0 ↔ timeSigLast = 0`, and
`timeSig ≤ timeSigLast` when set) are preserved by a recorder iteration whose
positive timestamp is no earlier than the previous one, and by a ticker
iteration whether or not it fires. -/
theorem operations_preserve_inv (s : BurstState) (now exitCode : Int)
    (hInv : Inv s) (hmono : s.timeSigLast ≤ now) (hpos : 0 < now) :
    Inv (recordEvent s now) ∧ Inv (tick s now exitCode).state := by
  obtain ⟨hiff, hle⟩ := hInv
  constructor
  · by_cases h : s.timeSig = 0
    · have he : recordEvent s now = ⟨now, now⟩ := by simp [recordEvent, h]
      rw [he]
      exact ⟨Iff.rfl, fun _ => le_refl now⟩
    · have he : recordEvent s now = ⟨s.timeSig, now⟩ := by simp [recordEvent, h]
      rw [he]
      exact ⟨⟨fun hc => absurd hc h, fun hc => absurd hc hpos.ne'⟩,
        fun _ => le_trans (hle h) hmono⟩
  · by_cases hf : shouldFire s now = true
    · simp [tick, hf, Inv]
    · have hf2 : shouldFire s now = false := by
        cases hsf : shouldFire s now
        · rfl
        · exact absurd hsf hf
      simp only [tick, hf2, Bool.false_eq_true, if_false, ite_false]
      exact ⟨hiff, hle⟩

/-- Witness for C4 at the concrete state (3, 4) with a record at time 6. -/
theorem operations_preserve_inv_witness :
    Inv (recordEvent ⟨3, 4⟩ 6) ∧ Inv (tick ⟨3, 4⟩ 6 1).state :=
  operations_preserve_inv ⟨3, 4⟩ 6 1 (by constructor <;> simp) (by norm_num) (by norm_num)

/-- C6 -- When the action exits non-zero on a fire: the warning line is
logged, the state is reset exactly as on success, exactly one invocation
happens (no retry), subsequent ticker iterations proceed unaffected from the
reset state, and no further fire happens without a new burst. -/
theorem action_failure_recovered (s : BurstState) (now exitCode : Int)
    (hf : shouldFire s now = true) (hnz : exitCode ≠ 0) :
    (tick s now exitCode).warned = true ∧
    (tick s now exitCode).state = (tick s now 0).state ∧
    (tick s now exitCode).state = ⟨0, 0⟩ ∧
    (tick s now exitCode).invocations = 1 ∧
    (∀ rest, runTicks s ((now, exitCode) :: rest) =
      ((runTicks ⟨0, 0⟩ rest).1, 1 + (runTicks ⟨0, 0⟩ rest).2)) ∧
    (∀ now2 e2, (tick ⟨0, 0⟩ now2 e2).fired = false ∧
      (tick ⟨0, 0⟩ now2 e2).invocations = 0) := by
  refine ⟨?_, ?_, ?_, ?_, ?_, ?_⟩
  · simp [tick, hf, hnz]
  · simp [tick, hf]
  · simp [tick, hf]
  · simp [tick, hf]
  · intro rest; simp [runTicks, tick, hf]
  · intro now2 e2
    constructor <;> simp [tick, shouldFire]

/-- Witness for C6 at a concrete quiet burst and exit status 7. -/
theorem action_failure_recovered_witness :
    (tick ⟨100, 103⟩ 110 7).warned = true ∧
    (tick ⟨100, 103⟩ 110 7).state = (tick ⟨100, 103⟩ 110 0).state ∧
    (tick ⟨100, 103⟩ 110 7).state = ⟨0, 0⟩ ∧
    (tick ⟨100, 103⟩ 110 7).invocations = 1 ∧
    (∀ rest, runTicks ⟨100, 103⟩ ((110, 7) :: rest) =
      ((runTicks ⟨0, 0⟩ rest).1, 1 + (runTicks ⟨0, 0⟩ rest).2)) ∧
    (∀ now2 e2, (tick ⟨0, 0⟩ now2 e2).fired = false ∧
      (tick ⟨0, 0⟩ now2 e2).invocations = 0) :=
  action_failure_recovered ⟨100, 103⟩ 110 7 (by decide) (by decide)

/-- The atomic statements of the ticker lambda body (lines 119-161 of
src/DirMon.cpp) in source order, used to reason about the scope of the
`lock_guard<mutex> lock(muxSig)` declared at line 141. -/
inductive TickerStmt
  | checkPending     -- line 123: if (!timeSig) continue;
  | sampleNow        -- line 126: const time_t now = time(nullptr);
  | testAge          -- line 128: if (now - timeSig < 60)
  | testIdle         -- line 130: if (now - timeSigLast < 5) continue;
  | acquireLock      -- line 141: lock_guard<mutex> lock(muxSig);
  | formatTime       -- line 143: _wctime64_s(dateBuf, &timeSig);
  | logDetected      -- line 154: wclog << ... Detected a modification.
  | runAction        -- line 156: _wsystem(batPath.c_str())
  | logWarning       -- line 157: wcerr << ... Non-zero error code ...
  | resetTimeSig     -- line 159: timeSig = 0;
  | resetTimeSigLast -- line 160: timeSigLast = 0;
  | releaseLock      -- line 161: lock_guard destructor at end of scope
deriving DecidableEq, Repr

/-- The ticker body in the order the statements appear in the source. -/
def tickerBody : List TickerStmt :=
  [.checkPending, .sampleNow, .testAge, .testIdle, .acquireLock, .formatTime,
   .logDetected, .runAction, .logWarning, .resetTimeSig, .resetTimeSigLast,
   .releaseLock]

/-- Scan a straight-line statement list left to right, marking each statement
with whether the mutex is held while it executes. -/
def lockMarks (held : Bool) : List TickerStmt → List (TickerStmt × Bool)
  | [] => []
  | stmt :: rest =>
    match stmt with
    | .acquireLock => (stmt, true) :: lockMarks true rest
    | .releaseLock => (stmt, true) :: lockMarks false rest
    | s => (s, held) :: lockMarks held rest

/-- Whether the mutex is held while the given statement of the ticker body
executes. -/
def lockHeldDuring (stmt : TickerStmt) : Bool :=
  ((lockMarks false tickerBody).filter (fun p => p.1 = stmt)).all (fun p => p.2)

/-- The statements that constitute the ticker's evaluation of the shared
timestamps `timeSig` and `timeSigLast` (lines 123, 128, 130). -/
def isEvalRead : TickerStmt → Bool
  | .checkPending => true
  | .testAge => true
  | .testIdle => true
  | _ => false

/-- C3 -- A fire resets both timestamps to the unset encoding; the two reset
statements are consecutive inside the locked region (same critical section);
and a subsequent recorder iteration with a positive timestamp starts a new
pending burst whose start is that timestamp. -/
theorem fire_resets_and_new_burst (s : BurstState) (now exitCode t : Int)
    (hf : shouldFire s now = true) (ht : 0 < t) :
    (tick s now exitCode).state = ⟨0, 0⟩ ∧
    lockHeldDuring .resetTimeSig = true ∧
    lockHeldDuring .resetTimeSigLast = true ∧
    tickerBody.indexOf .resetTimeSigLast = tickerBody.indexOf .resetTimeSig + 1 ∧
    recordEvent (tick s now exitCode).state t = ⟨t, t⟩ ∧
    (recordEvent (tick s now exitCode).state t).timeSig ≠ 0 := by
  have hstate : (tick s now exitCode).state = ⟨0, 0⟩ := by simp [tick, hf]
  refine ⟨hstate, by decide, by decide, by decide, ?_, ?_⟩
  · rw [hstate]; simp [recordEvent]
  · rw [hstate]; simp [recordEvent]; exact ht.ne'

/-- Witness for C3 at a concrete quiet burst and a record at time 120. -/
theorem fire_resets_and_new_burst_witness :
    (tick ⟨100, 103⟩ 110 0).state = ⟨0, 0⟩ ∧
    lockHeldDuring .resetTimeSig = true ∧
    lockHeldDuring .resetTimeSigLast = true ∧
    tickerBody.indexOf .resetTimeSigLast = tickerBody.indexOf .resetTimeSig + 1 ∧
    recordEvent (tick ⟨100, 103⟩ 110 0).state 120 = ⟨120, 120⟩ ∧
    (recordEvent (tick ⟨100, 103⟩ 110 0).state 120).timeSig ≠ 0 :=
  fire_resets_and_new_burst ⟨100, 103⟩ 110 0 120 (by decide) (by decide)

/-- C8 counterexample -- it is not the case that the ticker holds the mutex
for its evaluation of `timeSig`/`timeSigLast` as well as for the action and
reset: the test of `now - timeSig < 60` at line 128 (like the reads at lines
123 and 130) executes before the `lock_guard` at line 141 is reached. -/
theorem eval_reads_not_locked :
    ¬ ((∀ stmt, isEvalRead stmt = true → lockHeldDuring stmt = true) ∧
       lockHeldDuring .runAction = true ∧
       lockHeldDuring .resetTimeSig = true ∧
       lockHeldDuring .resetTimeSigLast = true) := by
  intro h
  exact absurd (h.1 .testAge rfl) (by decide)

/-- C8 (amended) -- the ticker's reads of `timeSig` and `timeSigLast` that
decide whether to fire execute without the mutex; the mutex is acquired only
on the fire path, and is then held through the logging, the action execution,
and the reset of both fields. -/
theorem lock_scope_covers_fire_only :
    lockHeldDuring .checkPending = false ∧
    lockHeldDuring .testAge = false ∧
    lockHeldDuring .testIdle = false ∧
    lockHeldDuring .logDetected = true ∧
    lockHeldDuring .runAction = true ∧
    lockHeldDuring .logWarning = true ∧
    lockHeldDuring .resetTimeSig = true ∧
    lockHeldDuring .resetTimeSigLast = true := by decide

/-- The recorder loop of `monitor` (lines 164-187): a do-while that blocks on
`WaitForSingleObject(h, INFINITE)`, records the event, and repeats while
`FindNextChangeNotification(h)` succeeds.  Each input element models one wait
outcome: `some t` is a notification arriving at time `t`; `none` is
closure/failure of the notification source, on which the loop exits normally
(the body has no error path and nothing after closure is processed). -/
def recorderLoop (s : BurstState) : List (Option Int) → BurstState
  | [] => s
  | none :: _ => s
  | some t :: rest => recorderLoop (recordEvent s t) rest

/-- The ticker loop `while (!done) { Sleep(5000); ... }` (lines 119-161).
Each planned iteration carries the value of the `done` flag its loop test
reads, the current time, and the action exit status; iteration stops at the
first test that observes `done = true` (line 189 sets the flag after the
recorder loop exits).  Returns the final state and the number of action
invocations. -/
def tickerLoop (s : BurstState) : List (Bool × Int × Int) → BurstState × Nat
  | [] => (s, 0)
  | (done, now, e) :: rest =>
    if done then (s, 0)
    else
      let r := tick s now e
      let p := tickerLoop r.state rest
      (p.1, r.invocations + p.2)

/-- C9 -- Closure of the notification source ends the recorder loop normally,
with exactly the events received before closure recorded and nothing after it
processed; and the ticker loop executes every iteration whose loop test
precedes the stop flag, stopping only at the first test that observes it. -/
theorem source_closure_clean_shutdown (s : BurstState) (ts : List Int)
    (junk : List (Option Int)) (ticks : List (Int × Int)) (d : Int × Int)
    (rest : List (Bool × Int × Int)) :
    recorderLoop s (ts.map some ++ none :: junk) = recordAll s ts ∧
    tickerLoop s (ticks.map (fun p => (false, p.1, p.2)) ++ (true, d.1, d.2) :: rest) =
      runTicks s ticks := by
  constructor
  · induction ts generalizing s with
    | nil => rfl
    | cons t rest2 ih =>
      simp only [List.map_cons, List.cons_append, recorderLoop, recordAll,
        List.foldl_cons]
      exact ih (recordEvent s t)
  · induction ticks generalizing s with
    | nil => rfl
    | cons p rest2 ih =>
      simp only [List.map_cons, List.cons_append, tickerLoop, runTicks,
        if_false, Bool.false_eq_true, ite_false]
      simp only [List.append_eq]
      rw [ih (tick s p.1 p.2).state]

/-- Control state of the recorder worker within one loop iteration. -/
inductive RecPhase
  | blocked  -- blocked in WaitForSingleObject (line 166)
  | arrived  -- notification delivered; at the lock_guard of line 167
  | locked   -- holds muxSig; about to execute time(nullptr) at line 168
  | sampled  -- has sampled now; about to run lines 183-185
deriving DecidableEq, Repr

/-- Control state of the ticker worker within one loop iteration. -/
inductive TickPhase
  | idle     -- sleeping / about to evaluate (lines 121-139)
  | decided  -- the evaluation chose the fire path; at the lock_guard of line 141
  | acting   -- holds muxSig; _wsystem is running (line 156)
  | acted    -- the action finished; about to run lines 159-160
deriving DecidableEq, Repr

/-- Global configuration of the interleaved execution: the wall clock, the
shared timestamps, each worker's control state, the time the recorder's wait
returned (its arrival time) and the time it sampled at line 168. -/
structure MonConfig where
  clock : Int
  timeSig : Int
  timeSigLast : Int
  recPh : RecPhase
  recArrival : Int
  recSampled : Int
  tickPh : TickPhase
deriving DecidableEq, Repr

/-- Whether the recorder holds `muxSig` (between line 167 and line 186). -/
def recHoldsLock (c : MonConfig) : Bool :=
  c.recPh == RecPhase.locked || c.recPh == RecPhase.sampled

/-- Whether the ticker holds `muxSig` (between line 141 and line 161). -/
def tickHoldsLock (c : MonConfig) : Bool :=
  c.tickPh == TickPhase.acting || c.tickPh == TickPhase.acted

/-- Schedulable atomic operations of the interleaved execution. -/
inductive MonOp
  | advance (d : Int) -- wall-clock time passes (d >= 0)
  | notify            -- a directory change unblocks WaitForSingleObject
  | recAcquire        -- recorder enters the lock_guard at line 167
  | recSample         -- recorder executes time(nullptr) at line 168
  | recUpdate         -- recorder runs lines 183-185 and releases the lock
  | tickEvaluate      -- ticker runs lines 123-139 (without the lock)
  | tickAcquire       -- ticker enters the lock_guard at line 141
  | tickActionDone    -- _wsystem at line 156 returns
  | tickReset         -- ticker runs lines 159-160 and releases the lock
deriving DecidableEq, Repr

/-- One atomic step of the interleaved execution; `none` when the scheduled
operation is not enabled — in particular a lock acquisition attempted while
the other worker holds `muxSig` blocks. -/
def step (c : MonConfig) : MonOp → Option MonConfig
  | .advance d => if 0 ≤ d then some { c with clock := c.clock + d } else none
  | .notify =>
    if c.recPh = RecPhase.blocked then
      some { c with recPh := RecPhase.arrived, recArrival := c.clock }
    else none
  | .recAcquire =>
    if c.recPh = RecPhase.arrived ∧ ¬ tickHoldsLock c then
      some { c with recPh := RecPhase.locked }
    else none
  | .recSample =>
    if c.recPh = RecPhase.locked then
      some { c with recPh := RecPhase.sampled, recSampled := c.clock }
    else none
  | .recUpdate =>
    if c.recPh = RecPhase.sampled then
      some { c with
        recPh := RecPhase.blocked
        timeSig := if c.timeSig = 0 then c.recSampled else c.timeSig
        timeSigLast := c.recSampled }
    else none
  | .tickEvaluate =>
    if c.tickPh = TickPhase.idle then
      if shouldFire ⟨c.timeSig, c.timeSigLast⟩ c.clock then
        some { c with tickPh := TickPhase.decided }
      else some c
    else none
  | .tickAcquire =>
    if c.tickPh = TickPhase.decided ∧ ¬ recHoldsLock c then
      some { c with tickPh := TickPhase.acting }
    else none
  | .tickActionDone =>
    if c.tickPh = TickPhase.acting then
      some { c with tickPh := TickPhase.acted }
    else none
  | .tickReset =>
    if c.tickPh = TickPhase.acted then
      some { c with tickPh := TickPhase.idle, timeSig := 0, timeSigLast := 0 }
    else none

/-- Run a schedule of atomic operations; `none` if any step is disabled. -/
def runOps (c : MonConfig) : List MonOp → Option MonConfig
  | [] => some c
  | op :: rest =>
    match step c op with
    | some c2 => runOps c2 rest
    | none => none

/-- Scenario C start: a burst began at t=90, its last event was at t=92, the
clock is at t=100, both workers are at their blocking points. -/
def scenarioStart : MonConfig :=
  { clock := 100, timeSig := 90, timeSigLast := 92, recPh := RecPhase.blocked,
    recArrival := 0, recSampled := 0, tickPh := TickPhase.idle }

/-- Scenario C prefix: the ticker fires at t=100 and is running the action
when a notification arrives at t=102. -/
def scenarioPrefix : List MonOp :=
  [.tickEvaluate, .tickAcquire, .advance 2, .notify]

/-- Scenario C full schedule: the action finishes at t=110, the ticker resets
and releases, and only then can the recorder acquire, sample and record. -/
def scenarioOps : List MonOp :=
  scenarioPrefix ++ [.advance 8, .tickActionDone, .tickReset,
    .recAcquire, .recSample, .recUpdate]

/-- C7 counterexample -- Scenario C on the code: the action runs from t=100
to t=110 with the lock held; an event arrives at t=102 and its lock
acquisition is disabled (it blocks), and after the reset it is recorded with
burst start 110 — the time sampled at line 168 after acquiring the lock —
not its original arrival time 102. -/
theorem blocked_event_not_arrival_stamped :
    (runOps scenarioStart scenarioPrefix).map
      (fun c => (c.recArrival, (step c MonOp.recAcquire).isNone)) = some (102, true) ∧
    (runOps scenarioStart scenarioOps).map
      (fun c => (c.recArrival, c.timeSig, c.timeSigLast)) = some (102, 110, 110) ∧
    (110 : Int) ≠ 102 := by decide

/-- C7 (amended) -- a recorder iteration that arrives while the ticker holds
the fire critical section blocks (its lock acquisition step is disabled)
until the release; once through, it is recorded as a fresh burst — never
merged into the just-fired burst, whose timestamps were reset — but the burst
start it records is the time it sampled after acquiring the lock, not
necessarily its arrival time. -/
theorem blocked_event_new_burst (c : MonConfig) :
    (tickHoldsLock c = true → step c MonOp.recAcquire = none) ∧
    (c.recPh = RecPhase.sampled → c.timeSig = 0 →
      ∃ c2, step c MonOp.recUpdate = some c2 ∧
        c2.timeSig = c.recSampled ∧ c2.timeSigLast = c.recSampled) := by
  constructor
  · intro h
    simp [step, h]
  · intro h1 h2
    refine ⟨{ c with
        recPh := RecPhase.blocked
        timeSig := if c.timeSig = 0 then c.recSampled else c.timeSig
        timeSigLast := c.recSampled }, ?_, ?_, rfl⟩
    · simp [step, h1]
    · simp [h2]

/-- Scenario C mid-action configuration: the notification has arrived at
t=102 while the ticker holds the lock and the action runs. -/
def scenarioMid : MonConfig :=
  ⟨102, 90, 92, RecPhase.arrived, 102, 0, TickPhase.acting⟩

/-- Scenario C post-release configuration: the fire reset the timestamps, the
recorder acquired the lock and sampled t=110. -/
def scenarioPost : MonConfig :=
  ⟨110, 0, 0, RecPhase.sampled, 102, 110, TickPhase.idle⟩

/-- Witness for C7's amended theorem: the blocking conjunct at the mid-action
configuration of Scenario C, and the fresh-burst conjunct at its
post-release configuration. -/
theorem blocked_event_new_burst_witness :
    step scenarioMid MonOp.recAcquire = none ∧
    ∃ c2, step scenarioPost MonOp.recUpdate = some c2 ∧
      c2.timeSig = scenarioPost.recSampled ∧ c2.timeSigLast = scenarioPost.recSampled :=
  ⟨(blocked_event_new_burst scenarioMid).1 (by decide),
   (blocked_event_new_burst scenarioPost).2 rfl rfl⟩

/-- C10 -- The code encodes "no pending burst" as timestamp `0`: a
`recordEvent` at time `0` on the idle state leaves both fields `0`, and every
subsequent ticker iteration behaves exactly as if no event had occurred. -/
theorem recordEvent_zero_invisible :
    recordEvent initialState 0 = initialState ∧
    (∀ now exitCode,
      tick (recordEvent initialState 0) now exitCode = tick initialState now exitCode) := by
  constructor
  · rfl
  · intro now exitCode
    rfl

end DirMon
